import Mathlib

/-!
Verification of the Databricks metadata explorer (`app.py`).

The file is a shallow embedding of the application: the query executor
`sql_query`, the four TTL-cached metadata accessors, the startup environment
assertion, and one reactive render pass of the Streamlit selection cascade
(lines 80 to 114 of the script), followed by proofs of the specification
claims about these components.
-/

namespace App

/-- A tabular query result: named columns and rows of cell values.  This
models the pandas DataFrame produced by `cursor.fetchall_arrow().to_pandas()`. -/
structure Df where
  cols : List String
  rows : List (List String)
deriving Repr, DecidableEq

/-- Column extraction, modelling `df[name].tolist()`.  The result is `none`
exactly when the column is absent, which in pandas raises a `KeyError`. -/
def Df.col (d : Df) (name : String) : Option (List String) :=
  match d.cols.indexOf? name with
  | none => none
  | some i => some (d.rows.map (fun r => r.getD i ""))

/-- The external warehouse, abstracted as an oracle from the SQL text of a
statement to its tabular result or to an execution error. -/
abbrev Oracle : Type := String → Except String Df

/-- Resource events emitted by the query executor. -/
inductive Ev where
  | connOpen
  | cursorOpen
  | exec (q : String)
  | cursorClose
  | connClose
deriving Repr, DecidableEq

/-- Semantics of a Python `with` block over a resource: the opening event
precedes the body and the closing event is emitted after it, also when the
body finishes with an error. -/
def withScope (opn cls : Ev) (body : List Ev × Except String Df) :
    List Ev × Except String Df :=
  (opn :: body.1 ++ [cls], body.2)

/-- The query executor `sql_query` (lines 10 to 19): open a connection with an
authenticated session, open a cursor in it, execute the statement, and hand
the warehouse result back unchanged; both `with` scopes close on every path. -/
def sql_query (W : Oracle) (query : String) : List Ev × Except String Df :=
  withScope .connOpen .connClose
    (withScope .cursorOpen .cursorClose ([Ev.exec query], W query))

/-- One memoised entry of `st.cache_data`: the stored value and the time at
which it was computed, in seconds. -/
structure CacheEntry where
  value : Df
  createdAt : Nat
deriving Repr, DecidableEq

/-- A per-function memo table keyed by the full argument tuple. -/
abbrev Cache (κ : Type) : Type := κ → Option CacheEntry

/-- The freshness window of every `st.cache_data` decorator in the app:
`ttl=60` seconds. -/
def cacheTtl : Nat := 60

/-- The outcome of one call to a cached accessor: the memo key built from the
arguments, the returned result, the cache after the call, and the list of SQL
statements sent to the warehouse during the call. -/
structure CallResult (κ : Type) where
  key : κ
  result : Except String Df
  cache : Cache κ
  queries : List String

/-- The cache-miss path: the statement runs through the executor; a
successful result is stored at the key with the current time, while an
exception is not cached and propagates. -/
def missCall {κ : Type} [DecidableEq κ] (W : Oracle) (stmt : κ → String)
    (c : Cache κ) (now : Nat) (k : κ) : CallResult κ :=
  match (sql_query W (stmt k)).2 with
  | .ok df => ⟨k, .ok df, fun j => if j = k then some ⟨df, now⟩ else c j, [stmt k]⟩
  | .error e => ⟨k, .error e, c, [stmt k]⟩

/-- Call semantics of a function decorated with `st.cache_data(ttl=60)`: a
stored entry still inside the freshness window is returned without contacting
the warehouse; otherwise the body runs and the entry is (re)computed. -/
def cachedCall {κ : Type} [DecidableEq κ] (W : Oracle) (stmt : κ → String)
    (c : Cache κ) (now : Nat) (k : κ) : CallResult κ :=
  match c k with
  | some e =>
    if now < e.createdAt + cacheTtl then ⟨k, .ok e.value, c, []⟩
    else missCall W stmt c now k
  | none => missCall W stmt c now k

/-- The fixed statement of `get_catalogs`. -/
def showCatalogsStmt : String := "SHOW CATALOGS"

/-- The statement template of `get_schemas`, built by f-string interpolation. -/
def showSchemasStmt (catalog : String) : String := s!"SHOW SCHEMAS IN {catalog}"

/-- The statement template of `get_tables`, built by f-string interpolation. -/
def showTablesStmt (catalog schema : String) : String :=
  s!"SHOW TABLES IN {catalog}.{schema}"

/-- The statement template of `get_table_data`, built by f-string
interpolation of the three identifiers and the limit. -/
def selectLimitStmt (catalog schema table : String) (limit : Nat) : String :=
  s!"SELECT * FROM {catalog}.{schema}.{table} LIMIT {limit}"

/-- The default of the `limit` parameter of `get_table_data`. -/
def previewDefaultLimit : Nat := 10

/-- Memo-key to statement function of `get_catalogs`. -/
def catalogsStmtK : Unit → String := fun _ => showCatalogsStmt

/-- Memo-key to statement function of `get_schemas`. -/
def schemasStmtK : String → String := fun catalog => showSchemasStmt catalog

/-- Memo-key to statement function of `get_tables`. -/
def tablesStmtK : String × String → String
  | (catalog, schema) => showTablesStmt catalog schema

/-- Memo-key to statement function of `get_table_data`. -/
def tableDataStmtK : String × String × String × Nat → String
  | (catalog, schema, table, limit) => selectLimitStmt catalog schema table limit

/-- `get_catalogs` (lines 22 to 24): cached, no arguments. -/
def get_catalogs (W : Oracle) (c : Cache Unit) (now : Nat) : CallResult Unit :=
  cachedCall W catalogsStmtK c now ()

/-- `get_schemas` (lines 26 to 28): cached on the catalog argument. -/
def get_schemas (W : Oracle) (c : Cache String) (now : Nat) (catalog : String) :
    CallResult String :=
  cachedCall W schemasStmtK c now catalog

/-- `get_tables` (lines 30 to 32): cached on the (catalog, schema) pair. -/
def get_tables (W : Oracle) (c : Cache (String × String)) (now : Nat)
    (catalog schema : String) : CallResult (String × String) :=
  cachedCall W tablesStmtK c now (catalog, schema)

/-- `get_table_data` (lines 34 to 36): cached on the full argument tuple,
limit included.  The Python parameter `limit` defaults to 10; call sites that
pass no limit supply `previewDefaultLimit`. -/
def get_table_data (W : Oracle) (c : Cache (String × String × String × Nat))
    (now : Nat) (catalog schema table : String) (limit : Nat) :
    CallResult (String × String × String × Nat) :=
  cachedCall W tableDataStmtK c now
    (catalog, schema, table, limit)

/-- Session state of one selectbox: the options the widget was last rendered
with and the currently selected value.  Streamlit widget identity includes the
option list, so state survives a rerun only when the options are unchanged. -/
structure BoxState where
  options : List String
  value : Option String
deriving Repr, DecidableEq

/-- Well-formedness of a box: the stored value is one of the stored options,
or `none` when the option list is empty. -/
def BoxState.wfb (b : BoxState) : Bool :=
  match b.value with
  | none => b.options.isEmpty
  | some v => b.options.contains v

/-- Well-formedness of an optional box state. -/
def boxWfb : Option BoxState → Bool
  | none => true
  | some b => b.wfb

/-- `st.selectbox` semantics: when the widget was previously rendered with the
same options its selection is kept; otherwise it is a fresh widget that
defaults to the first option (`none` when the option list is empty). -/
def selectbox (prev : Option BoxState) (options : List String) :
    Option String × BoxState :=
  match prev with
  | some b =>
    if b.options = options then (b.value, ⟨options, b.value⟩)
    else (options.head?, ⟨options, options.head?⟩)
  | none => (options.head?, ⟨options, options.head?⟩)

/-- Python truthiness of an optional string: `None` and `""` are falsy. -/
def pyTruthy : Option String → Bool
  | none => false
  | some s => !(s == "")

/-- The sidebar widget state entering a render pass: the three cascading
selectboxes (`none` when the box has not been rendered before) and the two
metadata checkboxes. -/
structure Widgets where
  catBox : Option BoxState
  schBox : Option BoxState
  tblBox : Option BoxState
  showSchemas : Bool
  showTables : Bool
deriving Repr, DecidableEq

/-- Well-formedness of the whole widget state. -/
def Widgets.wfb (ws : Widgets) : Bool :=
  boxWfb ws.catBox && boxWfb ws.schBox && boxWfb ws.tblBox

/-- The four per-function memo tables of `st.cache_data`. -/
structure Caches where
  catalogs : Cache Unit
  schemas : Cache String
  tables : Cache (String × String)
  tableData : Cache (String × String × String × Nat)

/-- All four caches empty, as at process start. -/
def Caches.empty : Caches :=
  ⟨fun _ => none, fun _ => none, fun _ => none, fun _ => none⟩

/-- The exceptions one render pass can raise. -/
inductive Err where
  | assertionError (msg : String)
  | queryError (e : String)
  | keyError (col : String)
  | nameError (name : String)
deriving Repr, DecidableEq

/-- Everything one successful render pass shows.  The `Option` wrapping of the
cascade fields records whether the corresponding Python local was assigned in
this pass (the schema and table widgets only render inside their guards). -/
structure PassOut where
  catalog_list : List String
  selected_catalog : Option String
  schema_list : Option (List String)
  selected_schema : Option (Option String)
  table_list : Option (List String)
  selected_table : Option (Option String)
  previewArgs : Option (String × String × String × Nat)
  preview : Option Df
  schemasMeta : Option Df
  tablesMeta : Option Df
deriving Repr, DecidableEq

/-- Decidable equality for `Except`, needed to evaluate run outcomes. -/
def exceptDecEq {ε α : Type} [DecidableEq ε] [DecidableEq α] :
    (a b : Except ε α) → Decidable (a = b)
  | .ok a, .ok b =>
    if h : a = b then isTrue (by rw [h]) else isFalse (by simp [h])
  | .ok _, .error _ => isFalse (by simp)
  | .error _, .ok _ => isFalse (by simp)
  | .error e, .error f =>
    if h : e = f then isTrue (by rw [h]) else isFalse (by simp [h])

instance {ε α : Type} [DecidableEq ε] [DecidableEq α] : DecidableEq (Except ε α) :=
  exceptDecEq

/-- The observable outcome of one run: the SQL statements sent to the
warehouse, and either the rendered output or the exception that ended it. -/
structure RunOut where
  queries : List String
  result : Except Err PassOut
deriving Repr, DecidableEq

/-- Body of the "Show Schemas Metadata" block (lines 106 to 109):
`st.dataframe(schemas)` raises `NameError` when the local `schemas` was never
assigned in this pass. -/
def schemasMetaBlock (checked : Bool) (schemas : Option Df) :
    Except Err (Option Df) :=
  if checked then
    match schemas with
    | none => .error (.nameError "schemas")
    | some df => .ok (some df)
  else .ok none

/-- Body of the "Show Tables Metadata" block (lines 111 to 114): the subheader
f-string reads `selected_schema` and `st.dataframe(tables)` reads `tables`;
either raises `NameError` when the local was never assigned in this pass. -/
def tablesMetaBlock (checked : Bool) (selected_schema : Option (Option String))
    (tables : Option Df) : Except Err (Option Df) :=
  if checked then
    match selected_schema with
    | none => .error (.nameError "selected_schema")
    | some _ =>
      match tables with
      | none => .error (.nameError "tables")
      | some df => .ok (some df)
  else .ok none

/-- The metadata section (lines 103 to 114), assembling the final output. -/
def metaSection (ws : Widgets) (qs : List String) (catalog_list : List String)
    (selected_catalog : Option String) (schemas : Option Df)
    (schema_list : Option (List String)) (selected_schema : Option (Option String))
    (tables : Option Df) (table_list : Option (List String))
    (selected_table : Option (Option String))
    (previewArgs : Option (String × String × String × Nat)) (preview : Option Df) :
    RunOut :=
  match schemasMetaBlock ws.showSchemas schemas with
  | .error e => ⟨qs, .error e⟩
  | .ok schemasMeta =>
    match tablesMetaBlock ws.showTables selected_schema tables with
    | .error e => ⟨qs, .error e⟩
    | .ok tablesMeta =>
      ⟨qs, .ok ⟨catalog_list, selected_catalog, schema_list, selected_schema,
                table_list, selected_table, previewArgs, preview, schemasMeta,
                tablesMeta⟩⟩

/-- Step 4 (lines 96 to 101) followed by the metadata section: the guard
`if selected_catalog and selected_schema and selected_table` is evaluated with
Python short-circuiting, raising `NameError` on a read of an unassigned local;
the preview call passes no `limit`, so the default 10 applies. -/
def afterCascade (W : Oracle) (cDat : Cache (String × String × String × Nat))
    (now : Nat) (ws : Widgets) (qs : List String) (catalog_list : List String)
    (selected_catalog : Option String) (schemas : Option Df)
    (schema_list : Option (List String)) (selected_schema : Option (Option String))
    (tables : Option Df) (table_list : Option (List String))
    (selected_table : Option (Option String)) : RunOut :=
  if pyTruthy selected_catalog then
    match selected_schema with
    | none => ⟨qs, .error (.nameError "selected_schema")⟩
    | some ss =>
      if pyTruthy ss then
        match selected_table with
        | none => ⟨qs, .error (.nameError "selected_table")⟩
        | some stv =>
          if pyTruthy stv then
            match
              get_table_data W cDat now (selected_catalog.getD "") (ss.getD "")
                (stv.getD "") previewDefaultLimit
            with
            | r4 =>
              match r4.result with
              | .error e => ⟨qs ++ r4.queries, .error (.queryError e)⟩
              | .ok data =>
                metaSection ws (qs ++ r4.queries) catalog_list selected_catalog
                  schemas schema_list selected_schema tables table_list
                  selected_table (some r4.key) (some data)
          else
            metaSection ws qs catalog_list selected_catalog schemas schema_list
              selected_schema tables table_list selected_table none none
      else
        metaSection ws qs catalog_list selected_catalog schemas schema_list
          selected_schema tables table_list selected_table none none
  else
    metaSection ws qs catalog_list selected_catalog schemas schema_list
      selected_schema tables table_list selected_table none none

/-- One reactive render pass over lines 80 to 114 of the script: the catalog,
schema and table steps each run only when their guard is truthy, exactly as
the Python `if` chain does, accumulating the statements sent to the
warehouse.  Any exception stops the pass. -/
def renderPass (W : Oracle) (cs : Caches) (now : Nat) (ws : Widgets) : RunOut :=
  match get_catalogs W cs.catalogs now with
  | r1 =>
    match r1.result with
    | .error e => ⟨r1.queries, .error (.queryError e)⟩
    | .ok catalogs =>
      match catalogs.col "catalog" with
      | none => ⟨r1.queries, .error (.keyError "catalog")⟩
      | some catalog_list =>
        match (selectbox ws.catBox catalog_list).1 with
        | selected_catalog =>
          if pyTruthy selected_catalog then
            match get_schemas W cs.schemas now (selected_catalog.getD "") with
            | r2 =>
              match r2.result with
              | .error e => ⟨r1.queries ++ r2.queries, .error (.queryError e)⟩
              | .ok schemas =>
                match schemas.col "databaseName" with
                | none => ⟨r1.queries ++ r2.queries, .error (.keyError "databaseName")⟩
                | some schema_list =>
                  match (selectbox ws.schBox schema_list).1 with
                  | selected_schema =>
                    if pyTruthy selected_schema then
                      match
                        get_tables W cs.tables now (selected_catalog.getD "")
                          (selected_schema.getD "")
                      with
                      | r3 =>
                        match r3.result with
                        | .error e =>
                          ⟨r1.queries ++ r2.queries ++ r3.queries, .error (.queryError e)⟩
                        | .ok tables =>
                          match tables.col "tableName" with
                          | none =>
                            ⟨r1.queries ++ r2.queries ++ r3.queries,
                             .error (.keyError "tableName")⟩
                          | some table_list =>
                            afterCascade W cs.tableData now ws
                              (r1.queries ++ r2.queries ++ r3.queries) catalog_list
                              selected_catalog (some schemas) (some schema_list)
                              (some selected_schema) (some tables) (some table_list)
                              (some (selectbox ws.tblBox table_list).1)
                    else
                      afterCascade W cs.tableData now ws (r1.queries ++ r2.queries)
                        catalog_list selected_catalog (some schemas)
                        (some schema_list) (some selected_schema) none none none
          else
            afterCascade W cs.tableData now ws r1.queries catalog_list
              selected_catalog none none none none none none

/-- The message of the line-8 assertion. -/
def warehouseMsg : String := "DATABRICKS_WAREHOUSE_ID must be set in app.yaml."

/-- Line 8 of the script: `assert os.getenv(DATABRICKS_WAREHOUSE_ID), msg`.
Python `assert` tests truthiness, so an unset variable and a variable set to
the empty string both fail. -/
def startup (env : String → Option String) : Except String Unit :=
  if pyTruthy (env "DATABRICKS_WAREHOUSE_ID") then .ok () else .error warehouseMsg

/-- One full script run: the import-time assertion runs before anything else;
only when it passes does the render pass execute (and query the warehouse). -/
def script (env : String → Option String) (W : Oracle) (cs : Caches) (now : Nat)
    (ws : Widgets) : RunOut :=
  match startup env with
  | .error m => ⟨[], .error (.assertionError m)⟩
  | .ok _ => renderPass W cs now ws

/-! ### Basic lemmas about the executor, the cache and the widgets -/

/-- The executor returns the warehouse result unchanged. -/
theorem sql_query_result (W : Oracle) (q : String) : (sql_query W q).2 = W q := rfl

/-- The executor's full resource trace, identical on success and failure. -/
theorem sql_query_trace (W : Oracle) (q : String) :
    (sql_query W q).1 =
      [Ev.connOpen, Ev.cursorOpen, Ev.exec q, Ev.cursorClose, Ev.connClose] := rfl

/-- `missCall` unfolded over the warehouse answer. -/
theorem missCall_def {κ : Type} [DecidableEq κ] (W : Oracle) (stmt : κ → String)
    (c : Cache κ) (now : Nat) (k : κ) :
    missCall W stmt c now k =
      match W (stmt k) with
      | .ok df => ⟨k, .ok df, fun j => if j = k then some ⟨df, now⟩ else c j, [stmt k]⟩
      | .error e => ⟨k, .error e, c, [stmt k]⟩ := rfl

/-- The memo key of a call is the argument tuple. -/
theorem cachedCall_key {κ : Type} [DecidableEq κ] (W : Oracle) (stmt : κ → String)
    (c : Cache κ) (now : Nat) (k : κ) : (cachedCall W stmt c now k).key = k := by
  unfold cachedCall
  cases hc : c k with
  | none =>
    rw [missCall_def]
    cases W (stmt k) <;> rfl
  | some e =>
    by_cases hf : now < e.createdAt + cacheTtl
    · simp [hf]
    · rw [missCall_def]
      simp only [hf, if_neg, if_false]
      cases W (stmt k) <;> rfl

/-- A fresh entry is served from the cache: no statement leaves the process. -/
theorem cachedCall_hit {κ : Type} [DecidableEq κ] (W : Oracle) (stmt : κ → String)
    (c : Cache κ) (now : Nat) (k : κ) (e : CacheEntry)
    (hc : c k = some e) (hf : now < e.createdAt + cacheTtl) :
    cachedCall W stmt c now k = ⟨k, .ok e.value, c, []⟩ := by
  unfold cachedCall
  rw [hc]
  simp [hf]

/-- A miss on an absent key with a successful query stores the result. -/
theorem cachedCall_miss_ok {κ : Type} [DecidableEq κ] (W : Oracle) (stmt : κ → String)
    (c : Cache κ) (now : Nat) (k : κ) (df : Df)
    (hc : c k = none) (hW : W (stmt k) = .ok df) :
    cachedCall W stmt c now k =
      ⟨k, .ok df, fun j => if j = k then some ⟨df, now⟩ else c j, [stmt k]⟩ := by
  unfold cachedCall
  rw [hc, missCall_def, hW]

/-- A miss on an expired key with a successful query replaces the entry. -/
theorem cachedCall_expired_ok {κ : Type} [DecidableEq κ] (W : Oracle) (stmt : κ → String)
    (c : Cache κ) (now : Nat) (k : κ) (e : CacheEntry) (df : Df)
    (hc : c k = some e) (hf : ¬ now < e.createdAt + cacheTtl) (hW : W (stmt k) = .ok df) :
    cachedCall W stmt c now k =
      ⟨k, .ok df, fun j => if j = k then some ⟨df, now⟩ else c j, [stmt k]⟩ := by
  unfold cachedCall
  rw [hc]
  simp only [hf, if_false]
  rw [missCall_def, hW]

/-- Any call that misses the cache sends exactly the one statement. -/
theorem cachedCall_miss_queries {κ : Type} [DecidableEq κ] (W : Oracle)
    (stmt : κ → String) (c : Cache κ) (now : Nat) (k : κ) (hc : c k = none) :
    (cachedCall W stmt c now k).queries = [stmt k] := by
  unfold cachedCall
  rw [hc, missCall_def]
  cases W (stmt k) <;> rfl

/-- Every call sends either no statement or exactly its one statement. -/
theorem cachedCall_queries {κ : Type} [DecidableEq κ] (W : Oracle)
    (stmt : κ → String) (c : Cache κ) (now : Nat) (k : κ) :
    (cachedCall W stmt c now k).queries = [] ∨
    (cachedCall W stmt c now k).queries = [stmt k] := by
  unfold cachedCall
  cases hc : c k with
  | none =>
    rw [missCall_def]
    cases W (stmt k)
    · right; rfl
    · right; rfl
  | some e =>
    by_cases hf : now < e.createdAt + cacheTtl
    · left; simp [hf]
    · rw [missCall_def]
      simp only [hf, if_false]
      cases W (stmt k)
      · right; rfl
      · right; rfl

/-- A call raises exactly when it contacted the warehouse and that single
execution raised, with the identical error value. -/
theorem cachedCall_error_iff {κ : Type} [DecidableEq κ] (W : Oracle)
    (stmt : κ → String) (c : Cache κ) (now : Nat) (k : κ) (e : String) :
    (cachedCall W stmt c now k).result = .error e ↔
      ((cachedCall W stmt c now k).queries = [stmt k] ∧ W (stmt k) = .error e) := by
  unfold cachedCall
  cases hc : c k with
  | none =>
    rw [missCall_def]
    cases hW : W (stmt k) <;> simp [hW]
  | some en =>
    by_cases hf : now < en.createdAt + cacheTtl
    · simp [hf]
    · rw [missCall_def]
      simp only [hf, if_false]
      cases hW : W (stmt k) <;> simp [hW]

/-- Two calls, same key, inside the window, starting with no entry: the first
queries once, the second is served from the cache with the identical value. -/
theorem cachedCall_idem {κ : Type} [DecidableEq κ] (W : Oracle) (stmt : κ → String)
    (c : Cache κ) (t1 t2 : Nat) (k : κ) (df : Df)
    (hc : c k = none) (hW : W (stmt k) = .ok df)
    (_h12 : t1 ≤ t2) (h2 : t2 < t1 + cacheTtl) :
    (cachedCall W stmt c t1 k).result = .ok df ∧
    (cachedCall W stmt (cachedCall W stmt c t1 k).cache t2 k).result = .ok df ∧
    (cachedCall W stmt c t1 k).queries = [stmt k] ∧
    (cachedCall W stmt (cachedCall W stmt c t1 k).cache t2 k).queries = [] := by
  have h1 := cachedCall_miss_ok W stmt c t1 k df hc hW
  have hck : (cachedCall W stmt c t1 k).cache k = some ⟨df, t1⟩ := by
    rw [h1]; simp
  have h2' := cachedCall_hit W stmt (cachedCall W stmt c t1 k).cache t2 k ⟨df, t1⟩ hck h2
  refine ⟨by rw [h1], by rw [h2'], by rw [h1], by rw [h2']⟩

/-- After expiry the same key queries again and the entry is replaced. -/
theorem cachedCall_expired {κ : Type} [DecidableEq κ] (W : Oracle) (stmt : κ → String)
    (c : Cache κ) (now : Nat) (k : κ) (v : Df) (t0 : Nat) (df : Df)
    (hc : c k = some ⟨v, t0⟩) (hexp : t0 + cacheTtl < now) (hW : W (stmt k) = .ok df) :
    (cachedCall W stmt c now k).queries = [stmt k] ∧
    (cachedCall W stmt c now k).result = .ok df ∧
    (cachedCall W stmt c now k).cache k = some ⟨df, now⟩ := by
  have hf : ¬ now < (⟨v, t0⟩ : CacheEntry).createdAt + cacheTtl := by
    simp only [CacheEntry.mk.injEq]
    omega
  have h := cachedCall_expired_ok W stmt c now k ⟨v, t0⟩ df hc hf hW
  rw [h]
  simp

/-- Characterisation of Python truthiness on optional strings. -/
theorem pyTruthy_iff (o : Option String) :
    pyTruthy o = true ↔ ∃ v, o = some v ∧ v ≠ "" := by
  cases o <;> simp [pyTruthy]

/-- A rendered selectbox only ever shows a member of the options it was
rendered with in this pass, regardless of any stale previous state. -/
theorem selectbox_sound (prev : Option BoxState) (options : List String)
    (hwf : boxWfb prev = true) :
    ((selectbox prev options).1 = none → options = []) ∧
    (∀ v, (selectbox prev options).1 = some v → v ∈ options) := by
  cases prev with
  | none =>
    cases options <;> simp [selectbox]
  | some b =>
    by_cases hb : b.options = options
    · simp only [selectbox, hb, if_pos]
      cases hv : b.value with
      | none =>
        simp only [boxWfb, BoxState.wfb, hv] at hwf
        constructor
        · intro _
          rw [← hb]
          exact List.isEmpty_iff.mp hwf
        · intro v hveq
          exact absurd hveq (by simp)
      | some v =>
        simp only [boxWfb, BoxState.wfb, hv] at hwf
        constructor
        · intro hcontra
          exact absurd hcontra (by simp)
        · intro w hw
          have : w = v := by simpa using hw.symm
          subst this
          rw [← hb]
          simpa [List.contains] using hwf
    · simp only [selectbox, hb, if_neg, if_false]
      cases options <;> simp

/-! ### Concrete inputs used by the witnesses -/

/-- A small result set used by the concrete test oracles. -/
def sampleDf : Df := ⟨["catalog"], [["main"], ["samples"]]⟩

/-- An oracle that answers every statement successfully with `sampleDf`. -/
def okOracle : Oracle := fun _ => .ok sampleDf

/-- An oracle on which every execution fails. -/
def failOracle : Oracle := fun _ => .error "warehouse unreachable"

/-- The everywhere-empty memo table. -/
def emptyCache {κ : Type} : Cache κ := fun _ => none

/-- A memo table whose every entry was created at time 0. -/
def staleCache {κ : Type} : Cache κ := fun _ => some ⟨sampleDf, 0⟩

/-! ### Claim C3 -/

/-- Claim C3: for each of the four accessors and any argument tuple, two
calls with identical arguments within the 60-second freshness window return
the identical (byte-identical) result, and the pair of calls causes exactly
one warehouse query: the first call sends the one statement, the second call
is served from the cache and sends none. -/
theorem accessor_idempotent_within_ttl :
    (∀ (W : Oracle) (c : Cache Unit) (t1 t2 : Nat) (df : Df),
      c () = none → W showCatalogsStmt = .ok df → t1 ≤ t2 → t2 < t1 + cacheTtl →
      (get_catalogs W c t1).result = .ok df ∧
      (get_catalogs W (get_catalogs W c t1).cache t2).result = .ok df ∧
      (get_catalogs W c t1).queries = [showCatalogsStmt] ∧
      (get_catalogs W (get_catalogs W c t1).cache t2).queries = []) ∧
    (∀ (W : Oracle) (c : Cache String) (t1 t2 : Nat) (cat : String) (df : Df),
      c cat = none → W (showSchemasStmt cat) = .ok df → t1 ≤ t2 → t2 < t1 + cacheTtl →
      (get_schemas W c t1 cat).result = .ok df ∧
      (get_schemas W (get_schemas W c t1 cat).cache t2 cat).result = .ok df ∧
      (get_schemas W c t1 cat).queries = [showSchemasStmt cat] ∧
      (get_schemas W (get_schemas W c t1 cat).cache t2 cat).queries = []) ∧
    (∀ (W : Oracle) (c : Cache (String × String)) (t1 t2 : Nat) (cat sch : String) (df : Df),
      c (cat, sch) = none → W (showTablesStmt cat sch) = .ok df → t1 ≤ t2 → t2 < t1 + cacheTtl →
      (get_tables W c t1 cat sch).result = .ok df ∧
      (get_tables W (get_tables W c t1 cat sch).cache t2 cat sch).result = .ok df ∧
      (get_tables W c t1 cat sch).queries = [showTablesStmt cat sch] ∧
      (get_tables W (get_tables W c t1 cat sch).cache t2 cat sch).queries = []) ∧
    (∀ (W : Oracle) (c : Cache (String × String × String × Nat)) (t1 t2 : Nat)
        (cat sch tbl : String) (n : Nat) (df : Df),
      c (cat, sch, tbl, n) = none → W (selectLimitStmt cat sch tbl n) = .ok df →
      t1 ≤ t2 → t2 < t1 + cacheTtl →
      (get_table_data W c t1 cat sch tbl n).result = .ok df ∧
      (get_table_data W (get_table_data W c t1 cat sch tbl n).cache t2 cat sch tbl n).result
        = .ok df ∧
      (get_table_data W c t1 cat sch tbl n).queries = [selectLimitStmt cat sch tbl n] ∧
      (get_table_data W (get_table_data W c t1 cat sch tbl n).cache t2 cat sch tbl n).queries
        = []) := by
  refine ⟨?_, ?_, ?_, ?_⟩
  · intro W c t1 t2 df h1 h2 h3 h4
    exact cachedCall_idem W catalogsStmtK c t1 t2 () df h1 h2 h3 h4
  · intro W c t1 t2 cat df h1 h2 h3 h4
    exact cachedCall_idem W schemasStmtK c t1 t2 cat df h1 h2 h3 h4
  · intro W c t1 t2 cat sch df h1 h2 h3 h4
    exact cachedCall_idem W tablesStmtK c t1 t2 (cat, sch) df h1 h2 h3 h4
  · intro W c t1 t2 cat sch tbl n df h1 h2 h3 h4
    exact cachedCall_idem W tableDataStmtK c t1 t2 (cat, sch, tbl, n) df h1 h2 h3 h4

/-- Witness for C3 at concrete inputs. -/
theorem accessor_idempotent_within_ttl_witness :
    (get_catalogs okOracle emptyCache 0).result = .ok sampleDf ∧
    (get_catalogs okOracle (get_catalogs okOracle emptyCache 0).cache 59).queries = [] ∧
    (get_schemas okOracle emptyCache 3 "main").result = .ok sampleDf ∧
    (get_schemas okOracle (get_schemas okOracle emptyCache 3 "main").cache 40 "main").result
      = .ok sampleDf ∧
    (get_tables okOracle emptyCache 0 "main" "default").queries
      = [showTablesStmt "main" "default"] ∧
    (get_table_data okOracle
      (get_table_data okOracle emptyCache 7 "main" "default" "t1" 5).cache
      50 "main" "default" "t1" 5).queries = [] := by
  obtain ⟨hA, hB, hC, hD⟩ := accessor_idempotent_within_ttl
  refine ⟨(hA okOracle emptyCache 0 59 sampleDf rfl rfl (by decide) (by decide)).1,
          (hA okOracle emptyCache 0 59 sampleDf rfl rfl (by decide) (by decide)).2.2.2,
          (hB okOracle emptyCache 3 40 "main" sampleDf rfl rfl (by decide) (by decide)).1,
          (hB okOracle emptyCache 3 40 "main" sampleDf rfl rfl (by decide) (by decide)).2.1,
          (hC okOracle emptyCache 0 1 "main" "default" sampleDf rfl rfl (by decide) (by decide)).2.2.1,
          (hD okOracle emptyCache 7 50 "main" "default" "t1" 5 sampleDf rfl rfl (by decide)
            (by decide)).2.2.2⟩

/-! ### Claim C4 -/

/-- Claim C4: once more than the 60-second window has elapsed since a cache
entry was created, the next call with the same arguments misses, issues a new
warehouse query, and replaces the stored entry with the fresh result. -/
theorem accessor_expiry_requeries :
    (∀ (W : Oracle) (c : Cache Unit) (now t0 : Nat) (v df : Df),
      c () = some ⟨v, t0⟩ → t0 + cacheTtl < now → W showCatalogsStmt = .ok df →
      (get_catalogs W c now).queries = [showCatalogsStmt] ∧
      (get_catalogs W c now).result = .ok df ∧
      (get_catalogs W c now).cache () = some ⟨df, now⟩) ∧
    (∀ (W : Oracle) (c : Cache String) (now t0 : Nat) (cat : String) (v df : Df),
      c cat = some ⟨v, t0⟩ → t0 + cacheTtl < now → W (showSchemasStmt cat) = .ok df →
      (get_schemas W c now cat).queries = [showSchemasStmt cat] ∧
      (get_schemas W c now cat).result = .ok df ∧
      (get_schemas W c now cat).cache cat = some ⟨df, now⟩) ∧
    (∀ (W : Oracle) (c : Cache (String × String)) (now t0 : Nat) (cat sch : String) (v df : Df),
      c (cat, sch) = some ⟨v, t0⟩ → t0 + cacheTtl < now → W (showTablesStmt cat sch) = .ok df →
      (get_tables W c now cat sch).queries = [showTablesStmt cat sch] ∧
      (get_tables W c now cat sch).result = .ok df ∧
      (get_tables W c now cat sch).cache (cat, sch) = some ⟨df, now⟩) ∧
    (∀ (W : Oracle) (c : Cache (String × String × String × Nat)) (now t0 : Nat)
        (cat sch tbl : String) (n : Nat) (v df : Df),
      c (cat, sch, tbl, n) = some ⟨v, t0⟩ → t0 + cacheTtl < now →
      W (selectLimitStmt cat sch tbl n) = .ok df →
      (get_table_data W c now cat sch tbl n).queries = [selectLimitStmt cat sch tbl n] ∧
      (get_table_data W c now cat sch tbl n).result = .ok df ∧
      (get_table_data W c now cat sch tbl n).cache (cat, sch, tbl, n) = some ⟨df, now⟩) := by
  refine ⟨?_, ?_, ?_, ?_⟩
  · intro W c now t0 v df h1 h2 h3
    exact cachedCall_expired W catalogsStmtK c now () v t0 df h1 h2 h3
  · intro W c now t0 cat v df h1 h2 h3
    exact cachedCall_expired W schemasStmtK c now cat v t0 df h1 h2 h3
  · intro W c now t0 cat sch v df h1 h2 h3
    exact cachedCall_expired W tablesStmtK c now (cat, sch) v t0 df h1 h2 h3
  · intro W c now t0 cat sch tbl n v df h1 h2 h3
    exact cachedCall_expired W tableDataStmtK c now (cat, sch, tbl, n) v t0 df h1 h2 h3

/-- Witness for C4 at concrete inputs: entries created at time 0, read at 61. -/
theorem accessor_expiry_requeries_witness :
    (get_catalogs okOracle staleCache 61).queries = [showCatalogsStmt] ∧
    (get_schemas okOracle staleCache 61 "main").result = .ok sampleDf ∧
    (get_tables okOracle staleCache 61 "main" "default").cache ("main", "default")
      = some ⟨sampleDf, 61⟩ ∧
    (get_table_data okOracle staleCache 100 "main" "default" "t1" 10).queries
      = [selectLimitStmt "main" "default" "t1" 10] := by
  obtain ⟨hA, hB, hC, hD⟩ := accessor_expiry_requeries
  refine ⟨(hA okOracle staleCache 61 0 sampleDf sampleDf rfl (by decide) rfl).1,
          (hB okOracle staleCache 61 0 "main" sampleDf sampleDf rfl (by decide) rfl).2.1,
          (hC okOracle staleCache 61 0 "main" "default" sampleDf sampleDf rfl (by decide) rfl).2.2,
          (hD okOracle staleCache 100 0 "main" "default" "t1" 10 sampleDf sampleDf rfl
            (by decide) rfl).1⟩

/-! ### Claim C5 -/

/-- Claim C5: every statement an accessor sends to the executor is exactly
the direct string interpolation of its arguments into its fixed template,
with no escaping or parameter binding; on a cold cache the accessor sends
precisely that one statement. -/
theorem accessor_statements_are_templates :
    (∀ (catalog schema table : String) (limit : Nat),
      showCatalogsStmt = "SHOW CATALOGS" ∧
      showSchemasStmt catalog = "SHOW SCHEMAS IN " ++ catalog ∧
      showTablesStmt catalog schema = "SHOW TABLES IN " ++ catalog ++ "." ++ schema ∧
      selectLimitStmt catalog schema table limit =
        "SELECT * FROM " ++ catalog ++ "." ++ schema ++ "." ++ table ++ " LIMIT "
          ++ toString limit) ∧
    (∀ (W : Oracle) (now : Nat),
      (get_catalogs W emptyCache now).queries = [showCatalogsStmt]) ∧
    (∀ (W : Oracle) (now : Nat) (cat : String),
      (get_schemas W emptyCache now cat).queries = [showSchemasStmt cat]) ∧
    (∀ (W : Oracle) (now : Nat) (cat sch : String),
      (get_tables W emptyCache now cat sch).queries = [showTablesStmt cat sch]) ∧
    (∀ (W : Oracle) (now : Nat) (cat sch tbl : String) (n : Nat),
      (get_table_data W emptyCache now cat sch tbl n).queries = [selectLimitStmt cat sch tbl n]) ∧
    (∀ (W : Oracle) (c : Cache Unit) (now : Nat) (q : String),
      q ∈ (get_catalogs W c now).queries → q = showCatalogsStmt) ∧
    (∀ (W : Oracle) (c : Cache String) (now : Nat) (cat q : String),
      q ∈ (get_schemas W c now cat).queries → q = showSchemasStmt cat) ∧
    (∀ (W : Oracle) (c : Cache (String × String)) (now : Nat) (cat sch q : String),
      q ∈ (get_tables W c now cat sch).queries → q = showTablesStmt cat sch) ∧
    (∀ (W : Oracle) (c : Cache (String × String × String × Nat)) (now : Nat)
        (cat sch tbl q : String) (n : Nat),
      q ∈ (get_table_data W c now cat sch tbl n).queries → q = selectLimitStmt cat sch tbl n) := by
  refine ⟨?_, ?_, ?_, ?_, ?_, ?_, ?_, ?_, ?_⟩
  · intro catalog schema table limit
    refine ⟨rfl, ?_, ?_, ?_⟩
    · simp [showSchemasStmt, String.append_empty, toString]
    · simp [showTablesStmt, String.append_empty, String.append_assoc, toString]
    · simp [selectLimitStmt, String.append_empty, String.append_assoc, toString]
  · intro W now
    exact cachedCall_miss_queries W catalogsStmtK emptyCache now () rfl
  · intro W now cat
    exact cachedCall_miss_queries W schemasStmtK emptyCache now cat rfl
  · intro W now cat sch
    exact cachedCall_miss_queries W tablesStmtK emptyCache now (cat, sch) rfl
  · intro W now cat sch tbl n
    exact cachedCall_miss_queries W tableDataStmtK emptyCache now (cat, sch, tbl, n) rfl
  · intro W c now q hq
    rcases cachedCall_queries W catalogsStmtK c now () with h | h <;>
      rw [show (get_catalogs W c now).queries
            = (cachedCall W catalogsStmtK c now ()).queries from rfl, h] at hq <;>
      simpa using hq
  · intro W c now cat q hq
    rcases cachedCall_queries W schemasStmtK c now cat with h | h <;>
      rw [show (get_schemas W c now cat).queries
            = (cachedCall W schemasStmtK c now cat).queries from rfl, h] at hq <;>
      simpa using hq
  · intro W c now cat sch q hq
    rcases cachedCall_queries W tablesStmtK c now (cat, sch) with h | h <;>
      rw [show (get_tables W c now cat sch).queries
            = (cachedCall W tablesStmtK c now (cat, sch)).queries from rfl, h] at hq <;>
      simpa using hq
  · intro W c now cat sch tbl q n hq
    rcases cachedCall_queries W tableDataStmtK c now (cat, sch, tbl, n) with h | h <;>
      rw [show (get_table_data W c now cat sch tbl n).queries
            = (cachedCall W tableDataStmtK c now (cat, sch, tbl, n)).queries from rfl, h] at hq <;>
      simpa using hq

/-- Witness for C5, including an argument with spaces and a semicolon that is
interpolated verbatim, unescaped. -/
theorem accessor_statements_are_templates_witness :
    showSchemasStmt "my catalog; x" = "SHOW SCHEMAS IN " ++ "my catalog; x" ∧
    (get_schemas okOracle emptyCache 0 "my catalog; x").queries
      = [showSchemasStmt "my catalog; x"] ∧
    (get_table_data okOracle emptyCache 0 "main" "default" "t1" 5).queries
      = [selectLimitStmt "main" "default" "t1" 5] ∧
    "SHOW CATALOGS" = showCatalogsStmt := by
  obtain ⟨hT, _, hS, _, hP, _⟩ := accessor_statements_are_templates
  exact ⟨(hT "my catalog; x" "" "" 0).2.1, hS okOracle 0 "my catalog; x",
         hP okOracle 0 "main" "default" "t1" 5, ((hT "" "" "" 0).1).symm⟩

/-! ### Claim C7 -/

/-- Claim C7: each executor call opens the warehouse connection with its
authenticated session and a cursor within the call and closes both before
returning, on the success path and equally when the execution raises, and it
forwards the warehouse outcome unchanged. -/
theorem sql_query_scoped_resources :
    (∀ (W : Oracle) (q : String),
      (sql_query W q).1 =
        [Ev.connOpen, Ev.cursorOpen, Ev.exec q, Ev.cursorClose, Ev.connClose] ∧
      (sql_query W q).2 = W q) ∧
    (∀ (W : Oracle) (q e : String), W q = .error e →
      (sql_query W q).2 = .error e ∧
      Ev.connClose ∈ (sql_query W q).1 ∧ Ev.cursorClose ∈ (sql_query W q).1) := by
  refine ⟨fun W q => ⟨rfl, rfl⟩, fun W q e h => ⟨?_, ?_, ?_⟩⟩
  · rw [sql_query_result, h]
  · rw [sql_query_trace]; simp
  · rw [sql_query_trace]; simp

/-- Witness for C7 on a concrete failing execution. -/
theorem sql_query_scoped_resources_witness :
    (sql_query failOracle "SHOW CATALOGS").2 = .error "warehouse unreachable" ∧
    Ev.connClose ∈ (sql_query failOracle "SHOW CATALOGS").1 ∧
    Ev.cursorClose ∈ (sql_query failOracle "SHOW CATALOGS").1 :=
  sql_query_scoped_resources.2 failOracle "SHOW CATALOGS" "warehouse unreachable" rfl

/-! ### Claim C8 -/

/-- Claim C8: any connection, authentication or SQL execution error raised by
the warehouse propagates unhandled: each accessor raises exactly when its one
warehouse execution raised (identical error value, never more than one
statement sent, so no retry and no local recovery), and the render pass
surfaces the accessor's error unchanged. -/
theorem errors_propagate_unhandled :
    (∀ (W : Oracle) (c : Cache Unit) (now : Nat) (e : String),
      (get_catalogs W c now).result = .error e ↔
        ((get_catalogs W c now).queries = [showCatalogsStmt] ∧
         W showCatalogsStmt = .error e)) ∧
    (∀ (W : Oracle) (c : Cache String) (now : Nat) (cat : String) (e : String),
      (get_schemas W c now cat).result = .error e ↔
        ((get_schemas W c now cat).queries = [showSchemasStmt cat] ∧
         W (showSchemasStmt cat) = .error e)) ∧
    (∀ (W : Oracle) (c : Cache (String × String)) (now : Nat) (cat sch : String) (e : String),
      (get_tables W c now cat sch).result = .error e ↔
        ((get_tables W c now cat sch).queries = [showTablesStmt cat sch] ∧
         W (showTablesStmt cat sch) = .error e)) ∧
    (∀ (W : Oracle) (c : Cache (String × String × String × Nat)) (now : Nat)
        (cat sch tbl : String) (n : Nat) (e : String),
      (get_table_data W c now cat sch tbl n).result = .error e ↔
        ((get_table_data W c now cat sch tbl n).queries = [selectLimitStmt cat sch tbl n] ∧
         W (selectLimitStmt cat sch tbl n) = .error e)) ∧
    (∀ (W : Oracle) (c : Cache Unit) (now : Nat),
      (get_catalogs W c now).queries = [] ∨
      (get_catalogs W c now).queries = [showCatalogsStmt]) ∧
    (∀ (W : Oracle) (cs : Caches) (now : Nat) (ws : Widgets) (e : String),
      (get_catalogs W cs.catalogs now).result = .error e →
      (renderPass W cs now ws).result = .error (.queryError e) ∧
      (renderPass W cs now ws).queries = (get_catalogs W cs.catalogs now).queries) := by
  refine ⟨?_, ?_, ?_, ?_, ?_, ?_⟩
  · intro W c now e
    exact cachedCall_error_iff W catalogsStmtK c now () e
  · intro W c now cat e
    exact cachedCall_error_iff W schemasStmtK c now cat e
  · intro W c now cat sch e
    exact cachedCall_error_iff W tablesStmtK c now (cat, sch) e
  · intro W c now cat sch tbl n e
    exact cachedCall_error_iff W tableDataStmtK c now (cat, sch, tbl, n) e
  · intro W c now
    exact cachedCall_queries W catalogsStmtK c now ()
  · intro W cs now ws e h
    unfold renderPass
    simp only [h]
    exact ⟨trivial, trivial⟩

/-- Witness for C8: a dead warehouse fails the accessor and the render pass
with the identical raw error. -/
theorem errors_propagate_unhandled_witness :
    (get_catalogs failOracle emptyCache 0).result = .error "warehouse unreachable" ∧
    (renderPass failOracle Caches.empty 0 ⟨none, none, none, false, false⟩).result
      = .error (.queryError "warehouse unreachable") := by
  have h1 := (errors_propagate_unhandled.1 failOracle emptyCache 0 "warehouse unreachable").mpr
    ⟨cachedCall_miss_queries failOracle catalogsStmtK emptyCache 0 () rfl, rfl⟩
  have h2 := (errors_propagate_unhandled.2.2.2.2.2 failOracle Caches.empty 0
    ⟨none, none, none, false, false⟩ "warehouse unreachable" h1).1
  exact ⟨h1, h2⟩

/-! ### Claim C9 -/

/-- Claim C9: when the warehouse answers the interpolated `SELECT ... LIMIT n`
statement with the first `n` rows of the addressed table, the preview accessor
returns exactly that result, so its row count is bounded by the limit and its
columns are the table's columns; in particular at most 5 rows for
`get_table_data("main","default","t1",5)`. -/
theorem preview_limit_bound :
    (∀ (W : Oracle) (c : Cache (String × String × String × Nat)) (now : Nat)
        (cols : List String) (rows : List (List String)),
      W (selectLimitStmt "main" "default" "t1" 5) = .ok ⟨cols, rows.take 5⟩ →
      c ("main", "default", "t1", 5) = none →
      (get_table_data W c now "main" "default" "t1" 5).result = .ok ⟨cols, rows.take 5⟩ ∧
      (rows.take 5).length ≤ 5) ∧
    (∀ (W : Oracle) (c : Cache (String × String × String × Nat)) (now : Nat)
        (cat sch tbl : String) (n : Nat) (cols : List String) (rows : List (List String)),
      W (selectLimitStmt cat sch tbl n) = .ok ⟨cols, rows.take n⟩ →
      c (cat, sch, tbl, n) = none →
      ∃ df, (get_table_data W c now cat sch tbl n).result = .ok df ∧
        df.rows.length ≤ n ∧ df.cols = cols) := by
  constructor
  · intro W c now cols rows hW hc
    have h := cachedCall_miss_ok W tableDataStmtK c now ("main", "default", "t1", 5)
      ⟨cols, rows.take 5⟩ hc hW
    constructor
    · show (cachedCall W tableDataStmtK c now ("main", "default", "t1", 5)).result = _
      rw [h]
    · simpa using List.length_take_le 5 rows
  · intro W c now cat sch tbl n cols rows hW hc
    have h := cachedCall_miss_ok W tableDataStmtK c now (cat, sch, tbl, n)
      ⟨cols, rows.take n⟩ hc hW
    refine ⟨⟨cols, rows.take n⟩, ?_, ?_, rfl⟩
    · show (cachedCall W tableDataStmtK c now (cat, sch, tbl, n)).result = _
      rw [h]
    · simpa using List.length_take_le n rows

/-- Witness for C9: a seven-row table previewed with limit 5. -/
def sevenRows : List (List String) :=
  [["1"], ["2"], ["3"], ["4"], ["5"], ["6"], ["7"]]

/-- Oracle serving `t1` with LIMIT semantics for the statement used by the
witness. -/
def limitOracle : Oracle := fun q =>
  if q = selectLimitStmt "main" "default" "t1" 5 then .ok ⟨["x"], sevenRows.take 5⟩
  else .error "unexpected statement"

/-- Witness for C9 at the concrete input of the claim. -/
theorem preview_limit_bound_witness :
    (get_table_data limitOracle emptyCache 0 "main" "default" "t1" 5).result
      = .ok ⟨["x"], sevenRows.take 5⟩ ∧
    (sevenRows.take 5).length ≤ 5 :=
  preview_limit_bound.1 limitOracle emptyCache 0 ["x"] sevenRows rfl rfl

/-! ### Claim C6 -/

/-- A concrete environment in which the warehouse variable is present but
holds the empty string. -/
def envEmptyVar : String → Option String :=
  fun k => if k = "DATABRICKS_WAREHOUSE_ID" then some "" else none

/-- Counterexample to C6 as stated: the warehouse-identifier variable is set
(to the empty string), yet startup fails, because the Python `assert` tests
truthiness rather than presence. -/
theorem startup_set_variable_still_fails :
    envEmptyVar "DATABRICKS_WAREHOUSE_ID" = some "" ∧
    startup envEmptyVar = .error warehouseMsg := ⟨rfl, rfl⟩

/-- Claim C6 (amended): with the variable unset the process fails at startup
with the descriptive assertion message and no warehouse query is ever issued;
with the variable set to a non-empty value startup proceeds into the render
pass; a variable set to the empty string also fails the assertion. -/
theorem startup_env_validation (env : String → Option String) (W : Oracle)
    (cs : Caches) (now : Nat) (ws : Widgets) :
    (env "DATABRICKS_WAREHOUSE_ID" = none →
      (script env W cs now ws).result = .error (.assertionError warehouseMsg) ∧
      (script env W cs now ws).queries = []) ∧
    (∀ v, env "DATABRICKS_WAREHOUSE_ID" = some v → v ≠ "" →
      startup env = .ok () ∧ script env W cs now ws = renderPass W cs now ws) ∧
    (env "DATABRICKS_WAREHOUSE_ID" = some "" →
      (script env W cs now ws).result = .error (.assertionError warehouseMsg) ∧
      (script env W cs now ws).queries = []) := by
  refine ⟨?_, ?_, ?_⟩
  · intro h
    unfold script startup
    rw [h]
    exact ⟨rfl, rfl⟩
  · intro v h hv
    unfold script startup
    rw [h]
    simp [pyTruthy, hv]
  · intro h
    unfold script startup
    rw [h]
    exact ⟨rfl, rfl⟩

/-- An environment with the warehouse variable absent. -/
def envUnset : String → Option String := fun _ => none

/-- An environment with the warehouse variable set to a non-empty id. -/
def envSet : String → Option String :=
  fun k => if k = "DATABRICKS_WAREHOUSE_ID" then some "wh-123" else none

/-- Witness for C6 (amended) at concrete environments. -/
theorem startup_env_validation_witness :
    (script envUnset okOracle Caches.empty 0 ⟨none, none, none, false, false⟩).queries = [] ∧
    startup envSet = .ok () ∧
    (script envEmptyVar okOracle Caches.empty 0 ⟨none, none, none, false, false⟩).result
      = .error (.assertionError warehouseMsg) := by
  have h1 := (startup_env_validation envUnset okOracle Caches.empty 0
    ⟨none, none, none, false, false⟩).1 rfl
  have h2 := (startup_env_validation envSet okOracle Caches.empty 0
    ⟨none, none, none, false, false⟩).2.1 "wh-123" rfl (by decide)
  have h3 := (startup_env_validation envEmptyVar okOracle Caches.empty 0
    ⟨none, none, none, false, false⟩).2.2 rfl
  exact ⟨h1.2, h2.1, h3.1⟩

/-- A successful metadata section passes every cascade field through to the
output unchanged. -/
theorem metaSection_fields {ws : Widgets} {qs : List String} {cl : List String}
    {sc : Option String} {sch : Option Df} {schl : Option (List String)}
    {ss : Option (Option String)} {tb : Option Df} {tbl : Option (List String)}
    {st : Option (Option String)} {pa : Option (String × String × String × Nat)}
    {pv : Option Df} {out : PassOut}
    (h : (metaSection ws qs cl sc sch schl ss tb tbl st pa pv).result = .ok out) :
    out.catalog_list = cl ∧ out.selected_catalog = sc ∧ out.schema_list = schl ∧
    out.selected_schema = ss ∧ out.table_list = tbl ∧ out.selected_table = st ∧
    out.previewArgs = pa ∧ out.preview = pv := by
  unfold metaSection at h
  split at h
  · exact absurd h (by simp)
  · split at h
    · exact absurd h (by simp)
    · injection h with h
      subst h
      exact ⟨rfl, rfl, rfl, rfl, rfl, rfl, rfl, rfl⟩

/-- A successful cascade tail passes every cascade field through to the
output unchanged. -/
theorem afterCascade_fields {W : Oracle} {cDat : Cache (String × String × String × Nat)}
    {now : Nat} {ws : Widgets} {qs : List String} {cl : List String}
    {sc : Option String} {sch : Option Df} {schl : Option (List String)}
    {ss : Option (Option String)} {tb : Option Df} {tbl : Option (List String)}
    {st : Option (Option String)} {out : PassOut}
    (h : (afterCascade W cDat now ws qs cl sc sch schl ss tb tbl st).result = .ok out) :
    out.catalog_list = cl ∧ out.selected_catalog = sc ∧ out.schema_list = schl ∧
    out.selected_schema = ss ∧ out.table_list = tbl ∧ out.selected_table = st := by
  unfold afterCascade at h
  dsimp only [] at h
  split at h
  · split at h
    · exact absurd h (by simp)
    · split at h
      · split at h
        · exact absurd h (by simp)
        · split at h
          · split at h
            · exact absurd h (by simp)
            · have hf := metaSection_fields h
              exact ⟨hf.1, hf.2.1, hf.2.2.1, hf.2.2.2.1, hf.2.2.2.2.1, hf.2.2.2.2.2.1⟩
          · have hf := metaSection_fields h
            exact ⟨hf.1, hf.2.1, hf.2.2.1, hf.2.2.2.1, hf.2.2.2.2.1, hf.2.2.2.2.2.1⟩
      · have hf := metaSection_fields h
        exact ⟨hf.1, hf.2.1, hf.2.2.1, hf.2.2.2.1, hf.2.2.2.2.1, hf.2.2.2.2.2.1⟩
  · have hf := metaSection_fields h
    exact ⟨hf.1, hf.2.1, hf.2.2.1, hf.2.2.2.1, hf.2.2.2.2.1, hf.2.2.2.2.2.1⟩

/-- The memo key of the preview call is its argument tuple. -/
theorem get_table_data_key (W : Oracle) (c : Cache (String × String × String × Nat))
    (now : Nat) (cat sch tbl : String) (lim : Nat) :
    (get_table_data W c now cat sch tbl lim).key = (cat, sch, tbl, lim) :=
  cachedCall_key W tableDataStmtK c now (cat, sch, tbl, lim)

/-- When the cascade tail records preview arguments, they are the current
truthy selections with the default limit. -/
theorem afterCascade_preview_out {W : Oracle} {cDat : Cache (String × String × String × Nat)}
    {now : Nat} {ws : Widgets} {qs : List String} {cl : List String}
    {sc : Option String} {sch : Option Df} {schl : Option (List String)}
    {ss : Option (Option String)} {tb : Option Df} {tbl : Option (List String)}
    {st : Option (Option String)} {out : PassOut} {c s t : String} {n : Nat}
    (h : (afterCascade W cDat now ws qs cl sc sch schl ss tb tbl st).result = .ok out)
    (hp : out.previewArgs = some (c, s, t, n)) :
    n = previewDefaultLimit ∧ out.selected_catalog = some c ∧ c ≠ "" ∧
    out.selected_schema = some (some s) ∧ s ≠ "" ∧
    out.selected_table = some (some t) ∧ t ≠ "" := by
  have hfall := afterCascade_fields h
  unfold afterCascade at h
  dsimp only [] at h
  split at h
  case isFalse hsc =>
    have hf := metaSection_fields h
    rw [hf.2.2.2.2.2.2.1] at hp
    exact absurd hp (by simp)
  case isTrue hsc =>
    split at h
    · exact absurd h (by simp)
    next ss2 =>
      split at h
      case isFalse hss =>
        have hf := metaSection_fields h
        rw [hf.2.2.2.2.2.2.1] at hp
        exact absurd hp (by simp)
      case isTrue hss =>
        split at h
        · exact absurd h (by simp)
        next st2 =>
          split at h
          case isFalse hst =>
            have hf := metaSection_fields h
            rw [hf.2.2.2.2.2.2.1] at hp
            exact absurd hp (by simp)
          case isTrue hst =>
            split at h
            · exact absurd h (by simp)
            next data hr4 =>
              have hf := metaSection_fields h
              rw [hf.2.2.2.2.2.2.1, get_table_data_key] at hp
              obtain ⟨v, hv, hvne⟩ := (pyTruthy_iff sc).mp hsc
              obtain ⟨v2, hv2, hv2ne⟩ := (pyTruthy_iff ss2).mp hss
              obtain ⟨v3, hv3, hv3ne⟩ := (pyTruthy_iff st2).mp hst
              rw [hv, hv2, hv3] at hp
              simp only [Option.getD_some, Option.some.injEq, Prod.mk.injEq] at hp
              obtain ⟨hc, hs, ht, hn⟩ := hp
              subst hc hs ht hn
              refine ⟨rfl, ?_, hvne, ?_, hv2ne, ?_, hv3ne⟩
              · rw [hfall.2.1, hv]
              · rw [hfall.2.2.2.1, hv2]
              · rw [hfall.2.2.2.2.2, hv3]

/-- Claim C10: every preview fetch the renderer issues uses the default limit
10: whenever a render pass records preview-call arguments, the limit component
is the default 10 and the other components are the current selections. -/
theorem render_preview_uses_default_limit {W : Oracle} {cs : Caches} {now : Nat}
    {ws : Widgets} {out : PassOut} {c s t : String} {n : Nat}
    (hrun : (renderPass W cs now ws).result = .ok out)
    (hp : out.previewArgs = some (c, s, t, n)) :
    n = previewDefaultLimit ∧ n = 10 ∧ out.selected_catalog = some c ∧ c ≠ "" ∧
    out.selected_schema = some (some s) ∧ s ≠ "" ∧
    out.selected_table = some (some t) ∧ t ≠ "" := by
  unfold renderPass at hrun
  dsimp only [] at hrun
  split at hrun
  · exact absurd hrun (by simp)
  · split at hrun
    · exact absurd hrun (by simp)
    · split at hrun
      · split at hrun
        · exact absurd hrun (by simp)
        · split at hrun
          · exact absurd hrun (by simp)
          · split at hrun
            · split at hrun
              · exact absurd hrun (by simp)
              · split at hrun
                · exact absurd hrun (by simp)
                · have hx := afterCascade_preview_out hrun hp
                  exact ⟨hx.1, hx.1, hx.2.1, hx.2.2.1, hx.2.2.2.1, hx.2.2.2.2.1,
                         hx.2.2.2.2.2.1, hx.2.2.2.2.2.2⟩
            · have hx := afterCascade_preview_out hrun hp
              exact ⟨hx.1, hx.1, hx.2.1, hx.2.2.1, hx.2.2.2.1, hx.2.2.2.2.1,
                     hx.2.2.2.2.2.1, hx.2.2.2.2.2.2⟩
      · have hx := afterCascade_preview_out hrun hp
        exact ⟨hx.1, hx.1, hx.2.1, hx.2.2.1, hx.2.2.2.1, hx.2.2.2.2.1,
               hx.2.2.2.2.2.1, hx.2.2.2.2.2.2⟩

/-- Claim C1: in every successful render pass whose catalog selection is `B`
(for instance right after the user switched from a previous catalog to `B`),
the rendered schema list is the `databaseName` column freshly derived from
`get_schemas` on `B`, the rendered schema selection is an element of that
list (or empty when the list is empty), and likewise the rendered table list
and table selection derive from `get_tables` on `B` and the current schema —
no child list or selection keyed to a previously selected catalog is shown. -/
theorem catalog_switch_rederives_children {W : Oracle} {cs : Caches} {now : Nat}
    {ws : Widgets} {out : PassOut} {B : String}
    (hwf : ws.wfb = true)
    (hrun : (renderPass W cs now ws).result = .ok out)
    (hsel : out.selected_catalog = some B) (hB : B ≠ "") :
    (∃ df l, (get_schemas W cs.schemas now B).result = .ok df ∧
       df.col "databaseName" = some l ∧ out.schema_list = some l ∧
       ((out.selected_schema = some none ∧ l = []) ∨
        (∃ v, out.selected_schema = some (some v) ∧ v ∈ l))) ∧
    (∀ v, out.selected_schema = some (some v) → v ≠ "" →
       ∃ df l, (get_tables W cs.tables now B v).result = .ok df ∧
         df.col "tableName" = some l ∧ out.table_list = some l ∧
         ((out.selected_table = some none ∧ l = []) ∨
          (∃ w, out.selected_table = some (some w) ∧ w ∈ l))) := by
  have hwf3 : (boxWfb ws.catBox = true ∧ boxWfb ws.schBox = true) ∧ boxWfb ws.tblBox = true := by
    unfold Widgets.wfb at hwf
    simpa [Bool.and_eq_true] using hwf
  have hwfS := hwf3.1.2
  have hwfT := hwf3.2
  unfold renderPass at hrun
  dsimp only [] at hrun
  split at hrun
  · exact absurd hrun (by simp)
  next catalogs hr1 =>
    split at hrun
    · exact absurd hrun (by simp)
    next catalog_list hcol1 =>
      split at hrun
      case isFalse hsc =>
        have hf := afterCascade_fields hrun
        rw [hf.2.1] at hsel
        rw [hsel] at hsc
        simp [pyTruthy, hB] at hsc
      case isTrue hsc =>
        split at hrun
        · exact absurd hrun (by simp)
        next schemas hr2 =>
          split at hrun
          · exact absurd hrun (by simp)
          next schema_list hcol2 =>
            split at hrun
            case isFalse hss =>
              have hf := afterCascade_fields hrun
              have hselcat : (selectbox ws.catBox catalog_list).1 = some B := by
                rw [← hf.2.1]; exact hsel
              rw [hselcat] at hr2
              simp only [Option.getD_some] at hr2
              constructor
              · refine ⟨schemas, schema_list, hr2, hcol2, hf.2.2.1, ?_⟩
                rcases hsv : (selectbox ws.schBox schema_list).1 with _ | v
                · exact Or.inl ⟨by rw [hf.2.2.2.1, hsv],
                    (selectbox_sound ws.schBox schema_list hwfS).1 hsv⟩
                · exact Or.inr ⟨v, by rw [hf.2.2.2.1, hsv],
                    (selectbox_sound ws.schBox schema_list hwfS).2 v hsv⟩
              · intro v hv hvne
                rw [hf.2.2.2.1] at hv
                injection hv with hv
                rw [hv] at hss
                simp [pyTruthy, hvne] at hss
            case isTrue hss =>
              split at hrun
              · exact absurd hrun (by simp)
              next tables hr3 =>
                split at hrun
                · exact absurd hrun (by simp)
                next table_list hcol3 =>
                  have hf := afterCascade_fields hrun
                  have hselcat : (selectbox ws.catBox catalog_list).1 = some B := by
                    rw [← hf.2.1]; exact hsel
                  rw [hselcat] at hr2
                  simp only [Option.getD_some] at hr2
                  rw [hselcat] at hr3
                  simp only [Option.getD_some] at hr3
                  constructor
                  · refine ⟨schemas, schema_list, hr2, hcol2, hf.2.2.1, ?_⟩
                    rcases hsv : (selectbox ws.schBox schema_list).1 with _ | v
                    · exact Or.inl ⟨by rw [hf.2.2.2.1, hsv],
                        (selectbox_sound ws.schBox schema_list hwfS).1 hsv⟩
                    · exact Or.inr ⟨v, by rw [hf.2.2.2.1, hsv],
                        (selectbox_sound ws.schBox schema_list hwfS).2 v hsv⟩
                  · intro v hv hvne
                    rw [hf.2.2.2.1] at hv
                    injection hv with hv
                    rw [hv] at hr3
                    simp only [Option.getD_some] at hr3
                    refine ⟨tables, table_list, hr3, hcol3, hf.2.2.2.2.1, ?_⟩
                    rcases htv : (selectbox ws.tblBox table_list).1 with _ | w
                    · exact Or.inl ⟨by rw [hf.2.2.2.2.2, htv],
                        (selectbox_sound ws.tblBox table_list hwfT).1 htv⟩
                    · exact Or.inr ⟨w, by rw [hf.2.2.2.2.2, htv],
                        (selectbox_sound ws.tblBox table_list hwfT).2 w htv⟩

/-! ### Claim C2 and concrete render scenarios -/

/-- Oracle of a warehouse with one catalog `main` that holds zero schemas. -/
def wZeroSchemas : Oracle := fun q =>
  if q = "SHOW CATALOGS" then .ok ⟨["catalog"], [["main"]]⟩
  else if q = "SHOW SCHEMAS IN main" then .ok ⟨["databaseName"], []⟩
  else .error "unexpected statement"

/-- Oracle of a warehouse with zero catalogs. -/
def wZeroCatalogs : Oracle := fun q =>
  if q = "SHOW CATALOGS" then .ok ⟨["catalog"], []⟩
  else .error "unexpected statement"

/-- First render with the "Show Tables Metadata" checkbox checked. -/
def wsTablesChecked : Widgets := ⟨none, none, none, false, true⟩

/-- First render with the "Show Schemas Metadata" checkbox checked. -/
def wsSchemasChecked : Widgets := ⟨none, none, none, true, false⟩

/-- First render with no metadata checkbox checked. -/
def wsUnchecked : Widgets := ⟨none, none, none, false, false⟩

/-- Claim C2 (code bug): the accessor does return an empty sequence for a
catalog with zero schemas, and the bare cascade renders it without raising;
but with the "Show Tables Metadata" checkbox on, the very same zero-schema
pass raises `NameError` because `tables` is never assigned when no truthy
schema selection exists, and with zero catalogs the "Show Schemas Metadata"
checkbox likewise raises `NameError` on `schemas` — so the render pass does
not always complete without raising when a cascade level is empty. -/
theorem metadata_render_raises_on_empty_lists :
    (get_schemas wZeroSchemas emptyCache 0 "main").result = .ok ⟨["databaseName"], []⟩ ∧
    (renderPass wZeroSchemas Caches.empty 0 wsUnchecked).result
      = .ok ⟨["main"], some "main", some [], some none, none, none, none, none, none, none⟩ ∧
    (renderPass wZeroSchemas Caches.empty 0 wsTablesChecked).result
      = .error (.nameError "tables") ∧
    (renderPass wZeroCatalogs Caches.empty 0 wsSchemasChecked).result
      = .error (.nameError "schemas") :=
  ⟨rfl, rfl, rfl, rfl⟩

/-- Oracle for the catalog-switch scenario: catalogs A and B, with the
children of B available. -/
def wSwitch : Oracle := fun q =>
  if q = "SHOW CATALOGS" then .ok ⟨["catalog"], [["A"], ["B"]]⟩
  else if q = "SHOW SCHEMAS IN B" then .ok ⟨["databaseName"], [["b1"], ["b2"]]⟩
  else if q = "SHOW TABLES IN B.b1" then
    .ok ⟨["database", "tableName", "isTemporary"], [["b1", "t1", "false"], ["b1", "t2", "false"]]⟩
  else if q = "SELECT * FROM B.b1.t1 LIMIT 10" then .ok ⟨["x", "y"], [["1", "2"]]⟩
  else .error "unexpected statement"

/-- Widget state right after the user switched the catalog from A to B: the
schema and table boxes still hold stale state derived from A. -/
def wsSwitch : Widgets :=
  ⟨some ⟨["A", "B"], some "B"⟩, some ⟨["a1", "a2"], some "a2"⟩,
   some ⟨["at1"], some "at1"⟩, false, false⟩

/-- The output of the pass that follows the switch to B. -/
def outSwitch : PassOut :=
  ⟨["A", "B"], some "B", some ["b1", "b2"], some (some "b1"), some ["t1", "t2"],
   some (some "t1"), some ("B", "b1", "t1", 10), some ⟨["x", "y"], [["1", "2"]]⟩,
   none, none⟩

/-- Witness for C1 on the concrete switch scenario. -/
theorem catalog_switch_rederives_children_witness :
    ∃ df l, (get_schemas wSwitch Caches.empty.schemas 0 "B").result = .ok df ∧
      df.col "databaseName" = some l ∧ outSwitch.schema_list = some l ∧
      ((outSwitch.selected_schema = some none ∧ l = []) ∨
       (∃ v, outSwitch.selected_schema = some (some v) ∧ v ∈ l)) :=
  (catalog_switch_rederives_children
    (show wsSwitch.wfb = true by decide)
    (show (renderPass wSwitch Caches.empty 0 wsSwitch).result = .ok outSwitch by decide)
    (show outSwitch.selected_catalog = some "B" by decide)
    (show "B" ≠ "" by decide)).1

/-- Witness for C10 on the concrete switch scenario, whose preview call was
recorded with limit 10. -/
theorem render_preview_uses_default_limit_witness :
    (10 : Nat) = previewDefaultLimit ∧ outSwitch.selected_catalog = some "B" ∧
    outSwitch.selected_table = some (some "t1") := by
  have h := render_preview_uses_default_limit
    (show (renderPass wSwitch Caches.empty 0 wsSwitch).result = .ok outSwitch by decide)
    (show outSwitch.previewArgs = some ("B", "b1", "t1", 10) by decide)
  exact ⟨h.1, h.2.2.1, h.2.2.2.2.2.2.1⟩

end App
